import Mathlib

/-!
Shallow embedding of `src/assisting-pc-gamers/quality_scorer.py`.

Conventions of the embedding:
* Python non-negative integer counts (reputation, votes, replies, views,
  word counts, code-block counts) are modelled as `Nat`, matching the
  documented domain ("non-negative integers").
* Python `float` arithmetic on scores is modelled as exact rational
  arithmetic over `ℚ`; every sub-scorer only ever produces integer values,
  so sub-scorers return `Nat` and are cast to `ℚ` in the weighted sum.
* `datetime` values are modelled as `Int` microseconds since an arbitrary
  epoch; `timedelta(days = n)` becomes `n * usPerDay`.  The ambient
  `datetime.now()` read by the source is modelled as an explicit `now : Int`
  argument threaded to every function that calls it.
* Python strings are modelled as Lean `String` / `List Char`; `str.lower`
  is modelled as ASCII `Char.toLower` (all table keys and phrases in the
  source are ASCII).
-/

/-- The `SolutionMetrics` dataclass: metrics for evaluating solution
quality, with the same fields and defaults as the source. -/
structure SolutionMetrics where
  author_reputation : Nat := 0
  author_post_count : Nat := 0
  author_badges : List String := []
  upvotes : Nat := 0
  downvotes : Nat := 0
  reply_count : Nat := 0
  view_count : Nat := 0
  word_count : Nat := 0
  has_steps : Bool := false
  has_screenshots : Bool := false
  has_video : Bool := false
  code_blocks : Nat := 0
  confirmed_working : Nat := 0
  contradicted : Bool := false
  is_solved : Bool := false
  dev_response : Bool := false
  mod_endorsed : Bool := false
  post_date : Option Int := none
  last_updated : Option Int := none
  game_version : Option String := none
  platform : String := "unknown"
deriving DecidableEq, Repr

/-- Microseconds per day; `timedelta(days = 1)` in the time model. -/
def usPerDay : Int := 86400000000

/-- Python `pat in text` on strings: `startsWithL pat t` is "`t` starts
with `pat`". -/
def startsWithL : List Char → List Char → Bool
  | [], _ => true
  | _ :: _, [] => false
  | p :: ps, t :: ts => p == t && startsWithL ps ts

/-- Python `pat in text` substring containment on character lists. -/
def containsSub (pat : List Char) : List Char → Bool
  | [] => startsWithL pat []
  | t :: ts => startsWithL pat (t :: ts) || containsSub pat ts

/-- Python `s.lower()` restricted to ASCII, as a character list. -/
def lowerChars (s : String) : List Char := s.data.map Char.toLower

/-- The `badge_scores` table of `_score_author_credibility`, in source
(insertion) order. -/
def badge_scores : List (String × Nat) :=
  [("moderator", 20), ("developer", 25), ("verified", 15), ("helper", 10),
   ("veteran", 10), ("expert", 15), ("mvp", 20), ("trusted", 15)]

/-- The inner `for key, points in badge_scores.items(): if key in
badge_lower: score += points; break` loop: the points of the first table
entry whose key occurs in the (lowered) badge string, else 0. -/
def badgeLoop : List (String × Nat) → List Char → Nat
  | [], _ => 0
  | kp :: rest, b => if containsSub kp.1.data b then kp.2 else badgeLoop rest b

/-- `QualityScorer._score_author_credibility`: reputation ladder +
post-count ladder + per-badge first-match points, clamped to 100. -/
def _score_author_credibility (m : SolutionMetrics) : Nat :=
  min ((if 10000 < m.author_reputation then 40
        else if 5000 < m.author_reputation then 35
        else if 1000 < m.author_reputation then 30
        else if 500 < m.author_reputation then 20
        else if 100 < m.author_reputation then 10
        else 0)
     + (if 1000 < m.author_post_count then 20
        else if 500 < m.author_post_count then 15
        else if 100 < m.author_post_count then 10
        else if 50 < m.author_post_count then 5
        else 0)
     + m.author_badges.foldl (fun s b => s + badgeLoop badge_scores (lowerChars b)) 0)
    100

/-- The upvote-ratio ladder of `_score_community_validation`. -/
def ratioBucket (r : ℚ) : Nat :=
  if 0.95 < r then 30
  else if 0.85 < r then 25
  else if 0.75 < r then 20
  else if 0.65 < r then 15
  else 10

/-- `QualityScorer._score_community_validation`: ratio ladder (guarded by
`upvotes > 0`, with `ratio = upvotes / max(1, upvotes + downvotes)`) +
absolute-upvote ladder + `min(confirmed_working * 10, 30)` + reply ladder +
view ladder, clamped to 100. -/
def _score_community_validation (m : SolutionMetrics) : Nat :=
  min ((if 0 < m.upvotes then
          ratioBucket ((m.upvotes : ℚ) / ((max 1 (m.upvotes + m.downvotes) : Nat) : ℚ))
        else 0)
     + (if 100 < m.upvotes then 20
        else if 50 < m.upvotes then 15
        else if 20 < m.upvotes then 10
        else if 10 < m.upvotes then 5
        else 0)
     + min (m.confirmed_working * 10) 30
     + (if 20 < m.reply_count then 15
        else if 10 < m.reply_count then 10
        else if 5 < m.reply_count then 5
        else 0)
     + (if 10000 < m.view_count then 5
        else if 1000 < m.view_count then 3
        else 0))
    100

/-- `QualityScorer._score_content_quality`: steps, visual aids, code
blocks, word-count band, solved mark, clamped to 100. -/
def _score_content_quality (m : SolutionMetrics) : Nat :=
  min ((if m.has_steps then 25 else 0)
     + (if m.has_screenshots then 20 else 0)
     + (if m.has_video then 15 else 0)
     + (if 0 < m.code_blocks then min (m.code_blocks * 5) 15 else 0)
     + (if 100 ≤ m.word_count ∧ m.word_count ≤ 500 then 15
        else if 50 ≤ m.word_count ∧ m.word_count < 100 then 10
        else if 500 < m.word_count ∧ m.word_count ≤ 1000 then 10
        else if 1000 < m.word_count then 5
        else 0)
     + (if m.is_solved then 10 else 0))
    100

/-- The pre-clamp accumulated sum of
`QualityScorer._score_official_endorsement`. -/
def endorsePre (m : SolutionMetrics) : Nat :=
  (if m.dev_response then 50 else 0)
  + (if m.mod_endorsed then 30 else 0)
  + (if m.is_solved then 20 else 0)

/-- `QualityScorer._score_official_endorsement`: +50 for a developer
response, +30 for moderator endorsement, +20 for the solved mark, clamped
to 100. -/
def _score_official_endorsement (m : SolutionMetrics) : Nat :=
  min (endorsePre m) 100

/-- `QualityScorer._score_recency`.  `now` models the ambient
`datetime.now()` the source reads; `age = now - post_date`. -/
def _score_recency (now : Int) (m : SolutionMetrics) : Nat :=
  match m.post_date with
  | none => 50
  | some d =>
    if now - d < 7 * usPerDay then 100
    else if now - d < 30 * usPerDay then 90
    else if now - d < 90 * usPerDay then 75
    else if now - d < 180 * usPerDay then 60
    else if now - d < 365 * usPerDay then 40
    else 20

/-- `QualityScorer._score_detail_level`: word-count ladder, structure,
supporting materials, code blocks, clamped to 100. -/
def _score_detail_level (m : SolutionMetrics) : Nat :=
  min ((if 200 < m.word_count then 30
        else if 100 < m.word_count then 20
        else if 50 < m.word_count then 10
        else 0)
     + (if m.has_steps then 30 else 0)
     + (if m.has_screenshots || m.has_video then 20 else 0)
     + (if 0 < m.code_blocks then 20 else 0))
    100

/-- The `PLATFORM_TRUST` multiplier table of `QualityScorer`. -/
def PLATFORM_TRUST : List (String × ℚ) :=
  [("steam", 1.1), ("reddit", 1.0), ("gamefaqs", 0.95), ("discord", 1.05),
   ("youtube", 0.9), ("wiki", 0.85), ("forum", 0.95)]

/-- `self.PLATFORM_TRUST.get(metrics.platform.lower(), 1.0)`. -/
def platformMult (p : String) : ℚ :=
  ((PLATFORM_TRUST.find? (fun kv => kv.1.data == lowerChars p)).map Prod.snd).getD 1

/-- The weighted total of `calculate_score`: the six sub-scores combined
with the fixed `WEIGHTS` table (which sums to 1). -/
def weightedTotal (now : Int) (m : SolutionMetrics) : ℚ :=
  (_score_author_credibility m : ℚ) * 0.20
  + (_score_community_validation m : ℚ) * 0.25
  + (_score_content_quality m : ℚ) * 0.20
  + (_score_official_endorsement m : ℚ) * 0.15
  + (_score_recency now m : ℚ) * 0.10
  + (_score_detail_level m : ℚ) * 0.10

/-- The total of `calculate_score` right before the contradiction penalty:
weighted sum times platform trust multiplier. -/
def prePenaltyTotal (now : Int) (m : SolutionMetrics) : ℚ :=
  weightedTotal now m * platformMult m.platform

/-- Python two-argument `min` on rationals, in the `if` form of
`min_def` (this form evaluates by kernel reduction). -/
def pyMin (a b : ℚ) : ℚ := if a ≤ b then a else b

/-- Python two-argument `max` on rationals, in the `if` form of
`max_def`. -/
def pyMax (a b : ℚ) : ℚ := if a ≤ b then b else a

/-- `QualityScorer.calculate_score`: weighted sum, platform multiplier,
20% contradiction penalty, clamp to [0, 100]. -/
def calculate_score (now : Int) (m : SolutionMetrics) : ℚ :=
  pyMin (pyMax ((if m.contradicted then prePenaltyTotal now m * 0.8
                 else prePenaltyTotal now m)) 0) 100

/-! ### Content analysis (`QualityScorer.analyze_content`) -/

/-- The result shape of `analyze_content` (a Python dict with a fixed key
set in the source). -/
structure ContentAnalysis where
  word_count : Nat
  has_steps : Bool
  has_screenshots : Bool
  has_video : Bool
  code_blocks : Nat
  confirmed_working : Nat
  has_warnings : Bool
deriving DecidableEq, Repr

/-- Python `str.split()` whitespace (ASCII part). -/
def pyIsSpace (c : Char) : Bool :=
  c == ' ' || c == '\t' || c == '\n' || c == '\r' || c == '\x0b' || c == '\x0c'

/-- `len(content.split())`: number of maximal nonempty runs of
non-whitespace characters.  The flag records whether the previous
character was inside a word. -/
def countWords : List Char → Bool → Nat
  | [], _ => 0
  | c :: cs, inW =>
    if pyIsSpace c then countWords cs false
    else (if inW then 0 else 1) + countWords cs true

/-- `re.search(r'\d+\.', content)` succeeds iff some digit is immediately
followed by a period. -/
def hasDigitDot : List Char → Bool
  | a :: b :: rest => (a.isDigit && b == '.') || hasDigitDot (b :: rest)
  | _ => false

/-- Whether a (lowered) text starts with `step ` followed by a digit,
the anchored form of `re.search(r'Step \d+', ..., re.IGNORECASE)`. -/
def isStepAt : List Char → Bool
  | 's' :: 't' :: 'e' :: 'p' :: ' ' :: d :: _ => d.isDigit
  | _ => false

/-- `re.search(r'Step \d+', content, re.IGNORECASE)` on the lowered text:
some suffix starts with `step ` and a digit. -/
def containsStepMarker : List Char → Bool
  | [] => false
  | c :: cs => isStepAt (c :: cs) || containsStepMarker cs

/-- Drop everything up to and including the first occurrence of `pat`;
`none` when `pat` does not occur. -/
def dropAfterSub (pat : List Char) : List Char → Option (List Char)
  | [] => if startsWithL pat [] then some [] else none
  | c :: cs =>
    if startsWithL pat (c :: cs) then some ((c :: cs).drop pat.length)
    else dropAfterSub pat cs

/-- `re.search(r'First.*Second.*Third', line, re.IGNORECASE)` restricted to
one newline-free line (`.` does not match a newline): ordered,
non-overlapping occurrences of the three (lowered) words. -/
def firstSecondThirdLine (l : List Char) : Bool :=
  match dropAfterSub "first".data l with
  | none => false
  | some r1 =>
    match dropAfterSub "second".data r1 with
    | none => false
    | some r2 => (dropAfterSub "third".data r2).isSome

/-- Split a character list into its newline-separated lines. -/
def splitLines : List Char → List (List Char)
  | [] => [[]]
  | c :: cs =>
    if c == '\n' then [] :: splitLines cs
    else
      match splitLines cs with
      | [] => [[c]]
      | l :: ls => (c :: l) :: ls

/-- The backquote character, written via its code point. -/
def backquote : Char := Char.ofNat 96

/-- `len(re.findall(r'...', content))` for a three-character run of `q`:
leftmost non-overlapping triple count. -/
def countTriple (q : Char) : List Char → Nat
  | a :: b :: c :: rest =>
    if a == q && b == q && c == q then 1 + countTriple q rest
    else countTriple q (b :: c :: rest)
  | _ => 0

/-- Fuel-driven body of `countSub`; the fuel is decremented once per
consumed character, so text length is always enough fuel. -/
def countSubFuel (pat : List Char) : Nat → List Char → Nat
  | 0, _ => 0
  | _, [] => 0
  | fuel + 1, c :: cs =>
    if startsWithL pat (c :: cs) then
      1 + countSubFuel pat fuel (cs.drop (pat.length - 1))
    else countSubFuel pat fuel cs

/-- `len(re.findall(pat, text))` for a literal pattern: leftmost
non-overlapping occurrence count.  One unit of fuel is spent per consumed
character, so `text.length` fuel can never run out early. -/
def countSub (pat l : List Char) : Nat :=
  countSubFuel pat l.length l

/-- The `confirmation_phrases` list of `analyze_content`. -/
def confirmation_phrases : List String :=
  ["this worked", "works for me", "can confirm",
   "solved my problem", "fixed it", "thanks this helped"]

/-- The `warning_phrases` list of `analyze_content` (the apostrophe of the
sixth phrase is written via its escape). -/
def warning_phrases : List String :=
  ["be careful", "warning", "caution", "important",
   "make sure", "don\x27t forget", "backup"]

/-- `QualityScorer.analyze_content`: derive structural indicators from the
raw post text. -/
def analyze_content (content : String) : ContentAnalysis :=
  let lowered := lowerChars content
  { word_count := countWords content.data false
    has_steps :=
      hasDigitDot content.data
      || containsStepMarker lowered
      || (splitLines lowered).any firstSecondThirdLine
    has_screenshots :=
      ["screenshot", "image", ".png", ".jpg", "!["].any
        (fun ind => containsSub ind.data lowered)
    has_video :=
      ["video", "youtube", "youtu.be", "twitch"].any
        (fun ind => containsSub ind.data lowered)
    code_blocks := countTriple backquote content.data
    confirmed_working :=
      (confirmation_phrases.map (fun p => countSub p.data lowered)).sum
    has_warnings :=
      warning_phrases.any (fun p => containsSub p.data lowered) }

/-! ### Batch ranking (`QualityScorer.compare_solutions`) -/

/-- One entry of the list `compare_solutions` returns (a Python dict with
keys score, metrics, content_preview, strengths, weaknesses). -/
structure RankedEntry where
  score : ℚ
  metrics : SolutionMetrics
  content_preview : String
  strengths : List String
  weaknesses : List String
deriving DecidableEq, Repr

/-- `QualityScorer._identify_strengths`. -/
def _identify_strengths (m : SolutionMetrics) : List String :=
  (if m.dev_response then ["Developer confirmed"] else [])
  ++ (if m.is_solved then ["Marked as solution"] else [])
  ++ (if 2 < m.confirmed_working then
        [toString m.confirmed_working ++ " users confirmed working"] else [])
  ++ (if m.has_steps then ["Step-by-step instructions"] else [])
  ++ (if m.has_screenshots || m.has_video then ["Visual aids included"] else [])
  ++ (if 50 < m.upvotes then
        ["Highly upvoted (" ++ toString m.upvotes ++ ")"] else [])
  ++ (if 5000 < m.author_reputation then ["Trusted author"] else [])

/-- `QualityScorer._identify_weaknesses` (`now` models the ambient
`datetime.now()` used for the age check). -/
def _identify_weaknesses (now : Int) (m : SolutionMetrics) : List String :=
  (if m.contradicted then ["Has contradicting replies"] else [])
  ++ (if (0.3 : ℚ) * m.upvotes < m.downvotes then ["Significant downvotes"] else [])
  ++ (match m.post_date with
      | some d => if 365 * usPerDay < now - d then ["Over 1 year old"] else []
      | none => [])
  ++ (if m.word_count < 50 then ["Very brief explanation"] else [])
  ++ (if !m.has_steps && 200 < m.word_count then ["Lacks structure"] else [])

/-- The `# Update metrics with content analysis` block of
`compare_solutions`: backfill exactly the five content-facet fields from
the content analysis. -/
def updateFromContent (m : SolutionMetrics) (content : String) : SolutionMetrics :=
  let a := analyze_content content
  { m with
    word_count := a.word_count
    has_steps := a.has_steps
    has_screenshots := a.has_screenshots
    has_video := a.has_video
    code_blocks := a.code_blocks }

/-- The loop body of `compare_solutions`: analyze, backfill, score, and
build the ranked-entry dict for one `(metrics, content)` pair. -/
def mkRankedEntry (now : Int) (p : SolutionMetrics × String) : RankedEntry :=
  let metrics := updateFromContent p.1 p.2
  { score := calculate_score now metrics
    metrics := metrics
    content_preview :=
      if 200 < p.2.length then String.mk (p.2.data.take 200) ++ "..." else p.2
    strengths := _identify_strengths metrics
    weaknesses := _identify_weaknesses now metrics }

/-- Stable descending insertion: place `x` before the first element whose
score is ≤ `x`'s, after every element whose score is strictly greater. -/
def insertDesc (x : RankedEntry) : List RankedEntry → List RankedEntry
  | [] => [x]
  | y :: ys => if y.score ≤ x.score then x :: y :: ys else y :: insertDesc x ys

/-- Stable descending sort by score, the model of Python
`list.sort(key=lambda x: x['score'], reverse=True)` (Timsort is stable and
`reverse=True` preserves the original order of equal keys). -/
def sortDesc : List RankedEntry → List RankedEntry
  | [] => []
  | x :: xs => insertDesc x (sortDesc xs)

/-- `QualityScorer.compare_solutions`: build an entry per candidate, then
stable-sort descending by score. -/
def compare_solutions (now : Int) (solutions : List (SolutionMetrics × String)) :
    List RankedEntry :=
  sortDesc (solutions.map (mkRankedEntry now))

/-! ### Record construction (`SolutionRanker._dict_to_metrics`) -/

/-- The documented domain of the external record's `date` value: an ISO
date string or an already-parsed datetime. -/
inductive DateVal where
  | str (s : String)
  | dt (t : Int)
deriving DecidableEq, Repr

/-- The external solution dictionary consumed by
`SolutionRanker._dict_to_metrics`; every key is optional. -/
structure SolutionDict where
  author_reputation : Option Nat := none
  upvotes : Option Nat := none
  score : Option Nat := none
  downvotes : Option Nat := none
  replies : Option Nat := none
  is_solved : Option Bool := none
  platform : Option String := none
  has_dev_response : Option Bool := none
  author_badges : Option (List String) := none
  content : Option String := none
  date : Option DateVal := none
deriving Repr

/-- `SolutionRanker._dict_to_metrics`.  Each present key of the
`field_mapping` is applied in source (insertion) order, so a present
`score` key overwrites a present `upvotes` key.  The standard-library
`datetime.fromisoformat` is abstracted as the `fromiso` parameter,
returning `none` exactly where the library raises `ValueError`; the
source's `try/except: pass` around the date assignment becomes the `none`
branch, leaving the default `post_date = none`. -/
def _dict_to_metrics (fromiso : String → Option Int) (d : SolutionDict) :
    SolutionMetrics :=
  let m : SolutionMetrics := {}
  let m := match d.author_reputation with
    | some v => { m with author_reputation := v } | none => m
  let m := match d.upvotes with
    | some v => { m with upvotes := v } | none => m
  let m := match d.score with
    | some v => { m with upvotes := v } | none => m
  let m := match d.downvotes with
    | some v => { m with downvotes := v } | none => m
  let m := match d.replies with
    | some v => { m with reply_count := v } | none => m
  let m := match d.is_solved with
    | some v => { m with is_solved := v } | none => m
  let m := match d.platform with
    | some v => { m with platform := v } | none => m
  let m := match d.has_dev_response with
    | some v => { m with dev_response := v } | none => m
  let m := match d.author_badges with
    | some v => { m with author_badges := v } | none => m
  match d.date with
  | some (DateVal.str s) =>
    match fromiso s with
    | some t => { m with post_date := some t }
    | none => m
  | some (DateVal.dt t) => { m with post_date := some t }
  | none => m

/-! ### Spec-side definitions used by amended claims -/

/-- Spec-phrased per-badge contribution: the points of the first table
entry (in table order) whose key is a case-insensitive substring of the
badge string, 0 when no key matches. -/
def badgePointsSpec (b : String) : Nat :=
  match badge_scores.find? (fun kp => containsSub kp.1.data (lowerChars b)) with
  | some kp => kp.2
  | none => 0

/-- Spec-phrased reputation + post-count ladders of author credibility
(the badge-free part of the sub-score, spec section 4.2). -/
def credLadders (m : SolutionMetrics) : Nat :=
  (if 10000 < m.author_reputation then 40
   else if 5000 < m.author_reputation then 35
   else if 1000 < m.author_reputation then 30
   else if 500 < m.author_reputation then 20
   else if 100 < m.author_reputation then 10
   else 0)
  + (if 1000 < m.author_post_count then 20
     else if 500 < m.author_post_count then 15
     else if 100 < m.author_post_count then 10
     else if 50 < m.author_post_count then 5
     else 0)

/-! ### Concrete records used by witnesses and counterexamples -/

/-- The all-default metrics record. -/
def mZero : SolutionMetrics := {}

/-- A record whose single badge string contains two distinct category
keywords (`developer` and `moderator`). -/
def c2m : SolutionMetrics := { author_badges := ["Developer Moderator"] }

/-- A contradicted record. -/
def c4m : SolutionMetrics := { contradicted := true }

/-- A record posted at time 0, scored at two different ambient times. -/
def c6m : SolutionMetrics := { post_date := some 0 }

/-- A record with all three endorsement flags set. -/
def c8AllFlags : SolutionMetrics :=
  { dev_response := true, mod_endorsed := true, is_solved := true }

/-- An external record carrying a malformed date-like string. -/
def c9d : SolutionDict := { date := some (DateVal.str "not-a-date") }

/-- A parser that rejects every string, the worst-case stand-in for
`datetime.fromisoformat` on malformed input. -/
def c9NoParse : String → Option Int := fun _ => none

/-! ### General lemmas -/

theorem pyMin_eq (a b : ℚ) : pyMin a b = min a b := by
  rw [min_def]; rfl

theorem pyMax_eq (a b : ℚ) : pyMax a b = max a b := by
  rw [max_def]; rfl

theorem endorsePre_le (m : SolutionMetrics) : endorsePre m ≤ 100 := by
  unfold endorsePre
  split_ifs <;> omega

/-! ### Claim theorems -/

/-- Claim C1: for every metrics record, each of the six factor sub-scores
lies in [0,100] (sub-scores are natural numbers, so 0 is a lower bound by
type), and the final score of `calculate_score` lies in [0,100] after the
weighted sum, platform multiplier and contradiction penalty. -/
theorem claim_C1_bounds (now : Int) (m : SolutionMetrics) :
    _score_author_credibility m ≤ 100 ∧
    _score_community_validation m ≤ 100 ∧
    _score_content_quality m ≤ 100 ∧
    _score_official_endorsement m ≤ 100 ∧
    _score_recency now m ≤ 100 ∧
    _score_detail_level m ≤ 100 ∧
    0 ≤ calculate_score now m ∧ calculate_score now m ≤ 100 := by
  refine ⟨Nat.min_le_right _ _, Nat.min_le_right _ _, Nat.min_le_right _ _,
    Nat.min_le_right _ _, ?_, Nat.min_le_right _ _, ?_, ?_⟩
  · cases h : m.post_date with
    | none => simp [_score_recency, h]
    | some d =>
      simp only [_score_recency, h]
      split_ifs <;> omega
  · rw [calculate_score, pyMin_eq, pyMax_eq]
    exact le_min (le_max_right _ _) (by norm_num)
  · rw [calculate_score, pyMin_eq, pyMax_eq]
    exact min_le_right _ _

/-- Claim C7: a record with no `post_date` gets recency sub-score exactly
50, a defined default of the (total) scoring function, not an error. -/
theorem claim_C7_recency_default (now : Int) (m : SolutionMetrics)
    (h : m.post_date = none) : _score_recency now m = 50 := by
  simp [_score_recency, h]

theorem claim_C7_witness :
    mZero.post_date = none ∧ _score_recency 0 mZero = 50 :=
  ⟨rfl, claim_C7_recency_default 0 mZero rfl⟩

/-- Claim C8, counterexample part: the claim asserts some record's
pre-clamp endorsement sum exceeds 100, but 50 + 30 + 20 = 100 exactly, so
no record's pre-clamp sum can exceed 100. -/
theorem claim_C8_counterexample :
    ¬ ∃ m : SolutionMetrics, 100 < endorsePre m := by
  rintro ⟨m, h⟩
  exact absurd h (not_lt.mpr (endorsePre_le m))

/-- Claim C8, amended: the official-endorsement sub-score adds 50 for
`dev_response`, 30 for `mod_endorsed` and 20 for `is_solved` and then
clamps to 100, but the pre-clamp sum never exceeds 100 — its maximum is
exactly 100 (attained with all three flags), so the clamp is a no-op. -/
theorem claim_C8_amended :
    (∀ m : SolutionMetrics,
      _score_official_endorsement m = endorsePre m ∧ endorsePre m ≤ 100) ∧
    endorsePre c8AllFlags = 100 := by
  refine ⟨fun m => ⟨?_, endorsePre_le m⟩, rfl⟩
  simp only [_score_official_endorsement]
  exact Nat.min_eq_left (endorsePre_le m)

/-- Claim C4: for a contradicted record, the final score is the
pre-penalty total (weighted sum times platform multiplier, computed from
the same record with `contradicted := false`) multiplied by 0.8 and only
then clamped to [0,100]; no cap or re-clamp happens between the
weighted/platform-multiplied total and the 0.8 multiplication. -/
theorem claim_C4_contradiction_penalty (now : Int) (m : SolutionMetrics)
    (h : m.contradicted = true) :
    calculate_score now m =
      min (max (prePenaltyTotal now { m with contradicted := false } * 0.8) 0) 100 := by
  have hpre : prePenaltyTotal now { m with contradicted := false }
      = prePenaltyTotal now m := rfl
  rw [hpre, calculate_score, pyMin_eq, pyMax_eq, h]
  simp

theorem claim_C4_witness :
    c4m.contradicted = true ∧
    calculate_score 0 c4m =
      min (max (prePenaltyTotal 0 { c4m with contradicted := false } * 0.8) 0) 100 :=
  ⟨rfl, claim_C4_contradiction_penalty 0 c4m rfl⟩

/-- Claim C6, counterexample part: the claim asserts that scoring the same
record twice yields the identical score and that the recency "now" is an
injectable parameter; in the source `_score_recency` reads the ambient
`datetime.now()`, so two calls at different ambient times (here 6 days and
8 days after the post) give different scores for the identical record. -/
theorem claim_C6_counterexample :
    calculate_score (6 * usPerDay) c6m ≠ calculate_score (8 * usPerDay) c6m := by
  have hA : _score_author_credibility c6m = 0 := rfl
  have hB : _score_community_validation c6m = 0 := rfl
  have hC : _score_content_quality c6m = 0 := rfl
  have hD : _score_official_endorsement c6m = 0 := rfl
  have hE : _score_detail_level c6m = 0 := rfl
  have hR6 : _score_recency (6 * usPerDay) c6m = 100 := rfl
  have hR8 : _score_recency (8 * usPerDay) c6m = 90 := rfl
  have hP : platformMult c6m.platform = 1 := rfl
  have hK : c6m.contradicted = false := rfl
  simp only [calculate_score, prePenaltyTotal, weightedTotal,
    hA, hB, hC, hD, hE, hR6, hR8, hP, hK]
  norm_num [pyMin, pyMax]

/-- Claim C6, amended: `calculate_score` is a pure function of the record
and the ambient now value, and depends on the now value only through the
recency sub-score; scoring the same record at two times with equal recency
sub-score yields the identical score.  The now value is read from ambient
system time in the source (`datetime.now()`), not injectable; the
embedding makes it an explicit argument only to model that ambient
read. -/
theorem claim_C6_amended (m : SolutionMetrics) (n1 n2 : Int)
    (h : _score_recency n1 m = _score_recency n2 m) :
    calculate_score n1 m = calculate_score n2 m := by
  simp only [calculate_score, prePenaltyTotal, weightedTotal, h]

theorem claim_C6_witness :
    _score_recency 0 mZero = _score_recency usPerDay mZero ∧
    calculate_score 0 mZero = calculate_score usPerDay mZero :=
  ⟨rfl, claim_C6_amended mZero 0 usPerDay rfl⟩

/-- Claim C2, counterexample part: the claim asserts that when one badge
string contains several distinct category keywords their points all stack;
for the single badge "Developer Moderator" (matching both `moderator`, 20
points, and `developer`, 25 points) the source's `break` awards only the
first matching table category, 20 points, not the stacked 45. -/
theorem claim_C2_counterexample :
    _score_author_credibility c2m = 20 ∧
    _score_author_credibility c2m ≠ 20 + 25 := by
  constructor
  · rfl
  · intro h
    rw [show _score_author_credibility c2m = 20 from rfl] at h
    omega

theorem badgeLoop_eq_find (table : List (String × Nat)) (b : List Char) :
    badgeLoop table b =
      match table.find? (fun kp => containsSub kp.1.data b) with
      | some kp => kp.2
      | none => 0 := by
  induction table with
  | nil => rfl
  | cons kp rest ih =>
    by_cases h : containsSub kp.1.data b
    · simp [badgeLoop, List.find?_cons_of_pos, h]
    · rw [badgeLoop, if_neg (by simp [h]), List.find?_cons_of_neg _ (by simp [h]), ih]

theorem foldl_add_map (f : String → Nat) (l : List String) (s : Nat) :
    l.foldl (fun acc b => acc + f b) s = s + (l.map f).sum := by
  induction l generalizing s with
  | nil => simp
  | cons b rest ih => simp [List.foldl_cons, ih, Nat.add_assoc]

/-- Claim C2, amended: each badge string is matched substring-wise and
case-insensitively against the fixed badge table; a badge contributes the
points of the first matching category in table order only — points of
several distinct categories matched by one badge string do NOT stack — and
the first-match contributions of distinct badge strings in the list all
add, with reputation and post-count ladders, before the clamp to 100. -/
theorem claim_C2_amended (m : SolutionMetrics) :
    _score_author_credibility m =
      min (credLadders m + (m.author_badges.map badgePointsSpec).sum) 100 := by
  have hfold : m.author_badges.foldl
      (fun s b => s + badgeLoop badge_scores (lowerChars b)) 0
      = (m.author_badges.map badgePointsSpec).sum := by
    rw [foldl_add_map (fun b => badgeLoop badge_scores (lowerChars b))
      m.author_badges 0, Nat.zero_add]
    congr 1
    apply List.map_congr_left
    intro b _
    rw [badgeLoop_eq_find badge_scores (lowerChars b)]
    rfl
  simp only [_score_author_credibility, hfold]
  rfl

theorem ratioBucket_mono {r1 r2 : ℚ} (h : r1 ≤ r2) :
    ratioBucket r1 ≤ ratioBucket r2 := by
  unfold ratioBucket
  split_ifs <;> first | omega | (exfalso; linarith)

theorem ratio_mono {u1 u2 d : Nat} (h0 : 0 < u1) (h : u1 ≤ u2) :
    (u1 : ℚ) / ((max 1 (u1 + d) : Nat) : ℚ) ≤
    (u2 : ℚ) / ((max 1 (u2 + d) : Nat) : ℚ) := by
  have e1 : max 1 (u1 + d) = u1 + d := Nat.max_eq_right (by omega)
  have e2 : max 1 (u2 + d) = u2 + d := Nat.max_eq_right (by omega)
  rw [e1, e2, div_le_div_iff₀ (by exact_mod_cast Nat.lt_of_lt_of_le h0 (Nat.le_add_right u1 d))
    (by exact_mod_cast Nat.lt_of_lt_of_le (Nat.lt_of_lt_of_le h0 h) (Nat.le_add_right u2 d))]
  push_cast
  have hq : (u1 : ℚ) ≤ u2 := by exact_mod_cast h
  have hd : (0 : ℚ) ≤ d := by positivity
  nlinarith [mul_le_mul_of_nonneg_right hq hd]

theorem ratioPart_mono {u1 u2 d : Nat} (h : u1 ≤ u2) :
    (if 0 < u1 then
      ratioBucket ((u1 : ℚ) / ((max 1 (u1 + d) : Nat) : ℚ)) else 0) ≤
    (if 0 < u2 then
      ratioBucket ((u2 : ℚ) / ((max 1 (u2 + d) : Nat) : ℚ)) else 0) := by
  by_cases h1 : 0 < u1
  · rw [if_pos h1, if_pos (Nat.lt_of_lt_of_le h1 h)]
    exact ratioBucket_mono (ratio_mono h1 h)
  · rw [if_neg h1]
    exact Nat.zero_le _

/-- Claim C3: increasing upvotes while holding downvotes (and every other
field) fixed never decreases the community-validation sub-score. -/
theorem claim_C3_upvote_mono (m : SolutionMetrics) (u1 u2 : Nat) (h : u1 ≤ u2) :
    _score_community_validation { m with upvotes := u1 } ≤
    _score_community_validation { m with upvotes := u2 } := by
  simp only [_score_community_validation]
  refine min_le_min (Nat.add_le_add (Nat.add_le_add (Nat.add_le_add
    (Nat.add_le_add (ratioPart_mono h) ?_) le_rfl) le_rfl) le_rfl) le_rfl
  split_ifs <;> omega

theorem claim_C3_witness :
    5 ≤ 7 ∧
    _score_community_validation { mZero with upvotes := 5 } ≤
      _score_community_validation { mZero with upvotes := 7 } :=
  ⟨by omega, claim_C3_upvote_mono mZero 5 7 (by omega)⟩

theorem mem_insertDesc {x z : RankedEntry} {ys : List RankedEntry}
    (h : z ∈ insertDesc x ys) : z = x ∨ z ∈ ys := by
  induction ys with
  | nil =>
    simp only [insertDesc, List.mem_singleton] at h
    exact Or.inl h
  | cons y ys ih =>
    simp only [insertDesc] at h
    by_cases hc : y.score ≤ x.score
    · rw [if_pos hc] at h
      exact List.mem_cons.mp h
    · rw [if_neg hc] at h
      rcases List.mem_cons.mp h with h | h
      · exact Or.inr (h ▸ List.mem_cons_self y ys)
      · rcases ih h with h | h
        · exact Or.inl h
        · exact Or.inr (List.mem_cons_of_mem y h)

theorem pairwise_insertDesc {x : RankedEntry} {ys : List RankedEntry}
    (h : ys.Pairwise (fun a b => b.score ≤ a.score)) :
    (insertDesc x ys).Pairwise (fun a b => b.score ≤ a.score) := by
  induction ys with
  | nil => simp [insertDesc]
  | cons y ys ih =>
    rcases List.pairwise_cons.mp h with ⟨hy, hys⟩
    by_cases hc : y.score ≤ x.score
    · simp only [insertDesc, if_pos hc]
      refine List.Pairwise.cons ?_ h
      intro z hz
      rcases List.mem_cons.mp hz with rfl | hz
      · exact hc
      · exact le_trans (hy z hz) hc
    · simp only [insertDesc, if_neg hc]
      refine List.Pairwise.cons ?_ (ih hys)
      intro z hz
      rcases mem_insertDesc hz with rfl | hz
      · exact le_of_not_le hc
      · exact hy z hz

theorem perm_insertDesc (x : RankedEntry) (ys : List RankedEntry) :
    (insertDesc x ys).Perm (x :: ys) := by
  induction ys with
  | nil => exact List.Perm.refl _
  | cons y ys ih =>
    by_cases hc : y.score ≤ x.score
    · simp [insertDesc, hc]
    · simp only [insertDesc, if_neg hc]
      exact (ih.cons y).trans (List.Perm.swap x y ys)

theorem filter_insertDesc (q : ℚ) (x : RankedEntry) (ys : List RankedEntry) :
    (insertDesc x ys).filter (fun e => decide (e.score = q)) =
      if x.score = q then x :: ys.filter (fun e => decide (e.score = q))
      else ys.filter (fun e => decide (e.score = q)) := by
  induction ys with
  | nil =>
    by_cases hx : x.score = q <;> simp [insertDesc, List.filter, hx]
  | cons y ys ih =>
    by_cases hc : y.score ≤ x.score
    · simp only [insertDesc, if_pos hc]
      by_cases hx : x.score = q <;> simp [List.filter_cons, hx]
    · simp only [insertDesc, if_neg hc, List.filter_cons, ih]
      by_cases hx : x.score = q
      · have hy : ¬ (y.score = q) := by
          intro he
          exact hc (le_of_eq (he.trans hx.symm))
        simp [hx, hy]
      · simp [hx]

theorem pairwise_sortDesc (l : List RankedEntry) :
    (sortDesc l).Pairwise (fun a b => b.score ≤ a.score) := by
  induction l with
  | nil => simp [sortDesc]
  | cons x xs ih => exact pairwise_insertDesc ih

theorem perm_sortDesc (l : List RankedEntry) : (sortDesc l).Perm l := by
  induction l with
  | nil => exact List.Perm.refl _
  | cons x xs ih => exact (perm_insertDesc x (sortDesc xs)).trans (ih.cons x)

theorem filter_sortDesc (q : ℚ) (l : List RankedEntry) :
    (sortDesc l).filter (fun e => decide (e.score = q)) =
      l.filter (fun e => decide (e.score = q)) := by
  induction l with
  | nil => rfl
  | cons x xs ih =>
    simp only [sortDesc, filter_insertDesc, ih, List.filter_cons]
    by_cases hx : x.score = q <;> simp [hx]

/-- Claim C5: the output of `compare_solutions` is the entry list of the
input in descending score order (pairwise `≥` on scores), it is a
permutation of the per-candidate entries in input order, and filtering
both lists to any fixed score value yields identical lists — so candidates
with equal scores keep their relative input order (stable sort). -/
theorem claim_C5_stable_descending (now : Int)
    (sols : List (SolutionMetrics × String)) :
    (compare_solutions now sols).Pairwise (fun a b => b.score ≤ a.score) ∧
    (compare_solutions now sols).Perm (sols.map (mkRankedEntry now)) ∧
    ∀ q : ℚ,
      (compare_solutions now sols).filter (fun e => decide (e.score = q)) =
        (sols.map (mkRankedEntry now)).filter (fun e => decide (e.score = q)) :=
  ⟨pairwise_sortDesc _, perm_sortDesc _, fun q => filter_sortDesc q _⟩

theorem dict_to_metrics_post_date_none (fromiso : String → Option Int)
    (d : SolutionDict) (h : d.date = none) :
    (_dict_to_metrics fromiso d).post_date = none := by
  rcases d with ⟨a, u, sc, dn, rp, sv, pf, dr, ab, ct, dt⟩
  cases h
  cases a <;> cases u <;> cases sc <;> cases dn <;> cases rp <;>
    cases sv <;> cases pf <;> cases dr <;> cases ab <;> rfl

/-- Claim C9: during record construction, a date-like value the parser
rejects is recovered locally — the built record equals the one built from
the same dictionary with the date key absent, its `post_date` is `none`
(the defined absent state, not an error) — and the scoring/ranking path
stays total on it (here: ranking the record still produces its one ranked
entry; every function on the path is total by construction in the
embedding). -/
theorem claim_C9_malformed_date (fromiso : String → Option Int)
    (d : SolutionDict) (s : String)
    (h1 : d.date = some (DateVal.str s)) (h2 : fromiso s = none) :
    _dict_to_metrics fromiso d = _dict_to_metrics fromiso { d with date := none } ∧
    (_dict_to_metrics fromiso d).post_date = none ∧
    ∀ (now : Int) (c : String),
      (compare_solutions now [(_dict_to_metrics fromiso d, c)]).length = 1 := by
  have heq : _dict_to_metrics fromiso d
      = _dict_to_metrics fromiso { d with date := none } := by
    simp only [_dict_to_metrics, h1, h2]
  refine ⟨heq, ?_, fun now c => rfl⟩
  rw [heq]
  exact dict_to_metrics_post_date_none fromiso { d with date := none } rfl

theorem claim_C9_witness :
    c9d.date = some (DateVal.str "not-a-date") ∧
    c9NoParse "not-a-date" = none ∧
    _dict_to_metrics c9NoParse c9d
      = _dict_to_metrics c9NoParse { c9d with date := none } ∧
    (_dict_to_metrics c9NoParse c9d).post_date = none ∧
    (compare_solutions 0 [(_dict_to_metrics c9NoParse c9d, "ok")]).length = 1 :=
  ⟨rfl, rfl,
   (claim_C9_malformed_date c9NoParse c9d "not-a-date" rfl rfl).1,
   (claim_C9_malformed_date c9NoParse c9d "not-a-date" rfl rfl).2.1,
   (claim_C9_malformed_date c9NoParse c9d "not-a-date" rfl rfl).2.2 0 "ok"⟩

/-- Claim C10: the backfill step of `compare_solutions` writes exactly the
five content-facet fields (word_count, has_steps, has_screenshots,
has_video, code_blocks) from the content analysis into the record; the
analysis's `confirmed_working` and `has_warnings` values are discarded
(the record keeps its externally supplied `confirmed_working`, and
`has_warnings` is never stored), so the community-validation sub-score of
the backfilled record equals that of the original record, every other
record field is unchanged, and the entry built by `compare_solutions`
carries exactly the backfilled record. -/
theorem claim_C10_backfill_frame (now : Int) (m : SolutionMetrics)
    (content : String) :
    (updateFromContent m content).word_count = (analyze_content content).word_count ∧
    (updateFromContent m content).has_steps = (analyze_content content).has_steps ∧
    (updateFromContent m content).has_screenshots
      = (analyze_content content).has_screenshots ∧
    (updateFromContent m content).has_video = (analyze_content content).has_video ∧
    (updateFromContent m content).code_blocks = (analyze_content content).code_blocks ∧
    (updateFromContent m content).confirmed_working = m.confirmed_working ∧
    (updateFromContent m content).author_reputation = m.author_reputation ∧
    (updateFromContent m content).author_post_count = m.author_post_count ∧
    (updateFromContent m content).author_badges = m.author_badges ∧
    (updateFromContent m content).upvotes = m.upvotes ∧
    (updateFromContent m content).downvotes = m.downvotes ∧
    (updateFromContent m content).reply_count = m.reply_count ∧
    (updateFromContent m content).view_count = m.view_count ∧
    (updateFromContent m content).contradicted = m.contradicted ∧
    (updateFromContent m content).is_solved = m.is_solved ∧
    (updateFromContent m content).dev_response = m.dev_response ∧
    (updateFromContent m content).mod_endorsed = m.mod_endorsed ∧
    (updateFromContent m content).post_date = m.post_date ∧
    (updateFromContent m content).last_updated = m.last_updated ∧
    (updateFromContent m content).game_version = m.game_version ∧
    (updateFromContent m content).platform = m.platform ∧
    _score_community_validation (updateFromContent m content)
      = _score_community_validation m ∧
    (mkRankedEntry now (m, content)).metrics = updateFromContent m content :=
  ⟨rfl, rfl, rfl, rfl, rfl, rfl, rfl, rfl, rfl, rfl, rfl, rfl, rfl, rfl, rfl,
   rfl, rfl, rfl, rfl, rfl, rfl, rfl, rfl⟩
